import Mathlib

/-!
# EDR report hub: the upload page controller (`static/script.js`)

A shallow embedding of the page script.  The DOM elements the script touches
and its one module variable become the fields of `Page`; every function of the
script becomes a function on `Page`; the suspension points of the `async`
code (`await fetch`, `await response.json()`, the two `setTimeout` calls)
become pending `Task`s that an `Event` of the environment resumes.
-/

namespace EdrReportHub

/-! ## JavaScript values -/

/-- The JavaScript values the script's variables range over: `null` (the initial
`generatedFilename`), `undefined` (a property the JSON body does not have) and
strings. -/
inductive JSVal where
  | null
  | undefined
  | str (s : String)
  deriving DecidableEq

/-- ToBoolean: `null`, `undefined` and the empty string are falsy. -/
def JSVal.truthy : JSVal → Bool
  | .null => false
  | .undefined => false
  | .str s => s != ""

/-- ToString, as used by template literals and string concatenation. -/
def JSVal.toStr : JSVal → String
  | .null => "null"
  | .undefined => "undefined"
  | .str s => s

/-- The `a || b` operator. -/
def JSVal.or (a b : JSVal) : JSVal :=
  if a.truthy then a else b

/-- The string a `textContent` assignment stores: `null` clears the text, any
other value is converted with ToString. -/
def JSVal.textContent : JSVal → String
  | .null => ""
  | v => v.toStr

/-! ## Files and the extension pattern -/

/-- A `File` object as the script reads it: `file.name`, `file.type`,
`file.size` (a non-negative integer number of bytes). -/
structure File where
  name : String
  type : String
  size : Nat
  deriving DecidableEq

/-- The fragment of regular expressions the script's pattern uses. -/
inductive Regex where
  | char (c : Char)
  | seq (a b : Regex)
  | alt (a b : Regex)
  | eos

/-- Canonicalize of the `i` flag (without `u`): a character is compared through
its upper-case form.  Only the mapping of ASCII letters is modelled: the
pattern's characters are all ASCII, and Canonicalize never maps a character
outside ASCII to one inside. -/
def canonicalize (c : Char) : Char := c.toUpper

/-- Backtracking matcher: `r.matchK s k` holds when `r` matches a prefix of `s`
and the continuation `k` accepts the rest. -/
def Regex.matchK : Regex → List Char → (List Char → Bool) → Bool
  | .char _, [], _ => false
  | .char c, x :: xs, k => canonicalize x == canonicalize c && k xs
  | .seq a b, s, k => a.matchK s (fun rest => b.matchK rest k)
  | .alt a b, s, k => a.matchK s k || b.matchK s k
  | .eos, s, k => s.isEmpty && k s

/-- An unanchored search: the pattern is tried at every start position. -/
def Regex.search (r : Regex) : List Char → Bool
  | [] => r.matchK [] (fun _ => true)
  | x :: xs => r.matchK (x :: xs) (fun _ => true) || r.search xs

/-- The literal `xlsx`. -/
def reXlsx : Regex := .seq (.char 'x') (.seq (.char 'l') (.seq (.char 's') (.char 'x')))

/-- The literal `xls`. -/
def reXls : Regex := .seq (.char 'x') (.seq (.char 'l') (.char 's'))

/-- The pattern `/\.(xlsx|xls)$/i`. -/
def excelExtension : Regex := .seq (.char '.') (.seq (.alt reXlsx reXls) .eos)

/-- Truthiness of `file.name.match(/\.(xlsx|xls)$/i)`. -/
def nameMatches (name : String) : Bool := excelExtension.search name.data

/-- The claims' words for a filename that ends in `suffix`, compared case-insensitively:
the letters `a` to `z` of both are put in upper case before the ends are
compared. -/
def endsWithIgnoringCase (name suffix : String) : Bool :=
  (suffix.data.map Char.toUpper).isSuffixOf (name.data.map Char.toUpper)

/-- The claims' words for a valid kind of file: its declared type is one of the two
accepted MIME types, or its filename ends in `.xlsx` or `.xls`, compared
case-insensitively. -/
def acceptedKind (file : File) : Bool :=
  file.type == "application/vnd.openxmlformats-officedocument.spreadsheetml.sheet"
    || file.type == "application/vnd.ms-excel"
    || endsWithIgnoringCase file.name ".xlsx"
    || endsWithIgnoringCase file.name ".xls"

/-- The array `validTypes` of `handleFileSelect`. -/
def validTypes : List String :=
  ["application/vnd.openxmlformats-officedocument.spreadsheetml.sheet", "application/vnd.ms-excel"]

/-! ## Requests, response bodies, pending work -/

/-- The body of a request: absent, or a `FormData` with its appended entries. -/
inductive Body where
  | none
  | formData (entries : List (String × File))
  deriving DecidableEq

/-- One call of `fetch(url, { method, body })`. -/
structure Request where
  method : String
  url : String
  body : Body
  deriving DecidableEq

/-- The object `response.json()` resolves to, read through the three properties
the script accesses. -/
structure UploadData where
  filename : JSVal
  message : JSVal
  error : JSVal
  deriving DecidableEq

/-- A suspended piece of the script, waiting for the environment. -/
inductive Task where
  | awaitFetch
  | awaitJson (status : Nat)
  | successTimer (data : UploadData)
  | cleanupTimer
  | done
  deriving DecidableEq

/-! ## The page -/

/-- The state the script reads and writes. -/
structure Page where
  /-- Whether `uploadSection.classList` contains `hidden`. -/
  uploadHidden : Bool
  /-- Whether `progressSection.classList` contains `hidden`. -/
  progressHidden : Bool
  /-- Whether `successSection.classList` contains `hidden`. -/
  successHidden : Bool
  /-- Whether `errorSection.classList` contains `hidden`. -/
  errorHidden : Bool
  /-- The percent `p` of `progressFill.style.width = p + '%'`. -/
  progressPercent : Nat
  /-- The value of `progressText.textContent`. -/
  progressText : String
  /-- The value of `successMessage.textContent`. -/
  successMessage : String
  /-- The value of `errorMessage.textContent`. -/
  errorMessage : String
  /-- The string last assigned to `fileInfo.innerHTML`. -/
  fileInfoHTML : String
  /-- Whether `fileInfo.classList` contains `show`. -/
  fileInfoShow : Bool
  /-- The value of `fileInput.value`. -/
  fileInputValue : String
  /-- The module variable `generatedFilename`. -/
  generatedFilename : JSVal
  /-- The value last assigned to `window.location.href`, if any. -/
  location : Option String
  /-- Every `fetch` call made so far, oldest first. -/
  requests : List Request
  /-- The suspended pieces of the script; a task keeps its position for life. -/
  tasks : List Task
  deriving DecidableEq

/-- The helper `showSection(section)`. -/
def showSection (sect : String) (p : Page) : Page :=
  let p := { p with uploadHidden := true }
  let p := { p with progressHidden := true }
  let p := { p with successHidden := true }
  let p := { p with errorHidden := true }
  if sect = "upload" then { p with uploadHidden := false }
  else if sect = "progress" then { p with progressHidden := false }
  else if sect = "success" then { p with successHidden := false }
  else if sect = "error" then { p with errorHidden := false }
  else p

/-- The helper `setProgress(percent, text)`. -/
def setProgress (percent : Nat) (text : String) (p : Page) : Page :=
  { p with progressPercent := percent, progressText := text }

/-- The helper `showError(message)`. -/
def showError (message : JSVal) (p : Page) : Page :=
  showSection "error" { p with errorMessage := message.textContent }

/-- The helper `reset()`. -/
def reset (p : Page) : Page :=
  let p := { p with fileInputValue := "" }
  let p := { p with fileInfoHTML := "" }
  let p := { p with fileInfoShow := false }
  let p := { p with generatedFilename := JSVal.null }
  let p := showSection "upload" p
  setProgress 0 "" p

/-- The size bound `10 * 1024 * 1024` of `handleFileSelect`. -/
def maxFileSize : Nat := 10 * 1024 * 1024

/-- The text of `(file.size / 1024).toFixed(2)`: the quotient rounded to the nearest
hundredth, a tie going up.  Division by 1024 is exact in double precision for
every size below 2^53, so the rounding is that of the exact quotient. -/
def sizeInKB (size : Nat) : String :=
  let n := (size * 100 + 512) / 1024
  toString (n / 100) ++ "." ++ (if n % 100 < 10 then "0" else "") ++ toString (n % 100)

/-- The `async function uploadFile(file)` up to its first suspension, the
`await fetch('/upload', ...)`: the request is issued and the rest of the
function is left pending as a new task. -/
def uploadFile (file : File) (p : Page) : Page :=
  let formData := Body.formData [("file", file)]
  let p := showSection "progress" p
  let p := setProgress 10 "Uploading file..." p
  let p := setProgress 30 "Validating Excel format..." p
  { p with
    requests := p.requests ++ [{ method := "POST", url := "/upload", body := formData }]
    tasks := p.tasks ++ [Task.awaitFetch] }

/-- The function `handleFileSelect(file)`; an absent file is `none`. -/
def handleFileSelect (file : Option File) (p : Page) : Page :=
  match file with
  | none => p
  | some file =>
    if !validTypes.contains file.type && !nameMatches file.name then
      showError (.str "Invalid file type. Please upload an Excel file (.xlsx or .xls)") p
    else if file.size > maxFileSize then
      showError (.str "File too large. Maximum size is 10MB") p
    else
      let p := { p with fileInfoHTML :=
        "\n        <strong>📄 Selected File:</strong><br>\n        " ++ file.name
          ++ " (" ++ sizeInKB file.size ++ " KB)\n    " }
      let p := { p with fileInfoShow := true }
      uploadFile file p

/-- The property `response.ok`: the status is in the range 200 to 299. -/
def responseOk (status : Nat) : Bool := 200 ≤ status && status ≤ 299

/-- Task `id` of `uploadFile` resumes after `await fetch(...)` resolved with a
response of the given status, and suspends again at `await response.json()`. -/
def fetchResolved (id status : Nat) (p : Page) : Page :=
  let p := setProgress 60 "Generating PowerPoint report..." p
  { p with tasks := p.tasks.set id (.awaitJson status) }

/-- The `catch (error)` block of `uploadFile`, entered by task `id` with an error
whose `message` is given. -/
def uploadFailed (id : Nat) (message : String) (p : Page) : Page :=
  showError (.str message) { p with tasks := p.tasks.set id .done }

/-- Task `id` of `uploadFile` resumes after `await response.json()` resolved with
`data`: a response that is not ok throws into the `catch` block, an ok one
schedules the success step. -/
def jsonResolved (id status : Nat) (data : UploadData) (p : Page) : Page :=
  if !responseOk status then
    uploadFailed id (data.error.or (.str "Upload failed")).toStr p
  else
    let p := setProgress 100 "Finalizing report..." p
    { p with tasks := p.tasks.set id (.successTimer data) }

/-- The callback `uploadFile` passes to `setTimeout(..., 500)`. -/
def successStep (id : Nat) (data : UploadData) (p : Page) : Page :=
  let p := { p with generatedFilename := data.filename }
  let p := { p with successMessage :=
    (data.message.or (.str "Your EDR report is ready to download")).textContent }
  let p := showSection "success" p
  { p with tasks := p.tasks.set id .done }

/-- The click handler of `downloadBtn`, up to the scheduling of the cleanup. -/
def downloadClick (p : Page) : Page :=
  if !p.generatedFilename.truthy then p
  else
    let p := { p with location := some ("/download/" ++ p.generatedFilename.toStr) }
    { p with tasks := p.tasks ++ [Task.cleanupTimer] }

/-- The callback the download handler passes to `setTimeout(..., 5000)`.  The
outcome of its `fetch` is awaited and dropped, so nothing is left pending. -/
def cleanupStep (id : Nat) (p : Page) : Page :=
  { p with
    requests := p.requests ++
      [{ method := "POST", url := "/cleanup/" ++ p.generatedFilename.toStr, body := .none }]
    tasks := p.tasks.set id .done }

/-! ## Events -/

/-- What the user and the environment can do to the page. -/
inductive Event where
  /-- A `change` of `fileInput` or a `drop` on `uploadBox`, with `files[0]`. -/
  | fileChosen (file : Option File)
  | downloadClicked
  | newReportClicked
  | retryClicked
  /-- The `fetch` of task `id` resolved with a response of this status. -/
  | fetchResolved (id status : Nat)
  /-- The `fetch` of task `id` rejected with an error of this message. -/
  | fetchRejected (id : Nat) (message : String)
  /-- The `response.json()` of task `id` resolved with this value. -/
  | jsonResolved (id : Nat) (data : UploadData)
  /-- The `response.json()` of task `id` rejected with an error of this message. -/
  | jsonRejected (id : Nat) (message : String)
  /-- The timer of task `id` expired. -/
  | timerFired (id : Nat)
  deriving DecidableEq

/-- One turn of the event loop.  An event of the environment that names a task
not waiting for it changes nothing. -/
def step (p : Page) : Event → Page
  | .fileChosen file => handleFileSelect file p
  | .downloadClicked => downloadClick p
  | .newReportClicked => reset p
  | .retryClicked => reset p
  | .fetchResolved id status =>
    match p.tasks[id]? with
    | some .awaitFetch => fetchResolved id status p
    | _ => p
  | .fetchRejected id message =>
    match p.tasks[id]? with
    | some .awaitFetch => uploadFailed id message p
    | _ => p
  | .jsonResolved id data =>
    match p.tasks[id]? with
    | some (.awaitJson status) => jsonResolved id status data p
    | _ => p
  | .jsonRejected id message =>
    match p.tasks[id]? with
    | some (.awaitJson _) => uploadFailed id message p
    | _ => p
  | .timerFired id =>
    match p.tasks[id]? with
    | some (.successTimer data) => successStep id data p
    | some .cleanupTimer => cleanupStep id p
    | _ => p

/-- The events of a list, in order. -/
def run (p : Page) (events : List Event) : Page := events.foldl step p

/-- The last statement of the upload part of the script: `showSection('upload')`. -/
def initialise (p : Page) : Page := showSection "upload" p

/-- A page with nothing in it: no class set, every text empty, nothing pending. -/
def blankPage : Page :=
  { uploadHidden := false, progressHidden := false, successHidden := false
    errorHidden := false, progressPercent := 0, progressText := ""
    successMessage := "", errorMessage := "", fileInfoHTML := "", fileInfoShow := false
    fileInputValue := "", generatedFilename := .null, location := none
    requests := [], tasks := [] }

/-- The names of the sections that do not carry the class `hidden`. -/
def visibleSections (p : Page) : List String :=
  (if p.uploadHidden then [] else ["upload"])
    ++ (if p.progressHidden then [] else ["progress"])
    ++ (if p.successHidden then [] else ["success"])
    ++ (if p.errorHidden then [] else ["error"])

/-- The task an event of the environment resumes; a user action resumes none. -/
def Event.target : Event → Option Nat
  | .fileChosen _ => none
  | .downloadClicked => none
  | .newReportClicked => none
  | .retryClicked => none
  | .fetchResolved id _ => some id
  | .fetchRejected id _ => some id
  | .jsonResolved id _ => some id
  | .jsonRejected id _ => some id
  | .timerFired id => some id

/-- None of the events resumes task `id`: they are user actions or belong to
other submissions and timers. -/
def elsewhere (id : Nat) (events : List Event) : Bool :=
  events.all (fun e => e.target != some id)

/-- A submission whose request fails: `uploadFile` starts from page `p`, where its task
gets the next free position, other events `before` come in between, and the
`fetch` rejects. -/
def requestFails (p : Page) (file : File) (before : List Event) (message : String) : Page :=
  run (uploadFile file p) (before ++ [.fetchRejected p.tasks.length message])

/-- A submission answered with a status line whose body cannot be read:
`response.json()` rejects. -/
def bodyFails (p : Page) (file : File) (before : List Event) (status : Nat)
    (between : List Event) (message : String) : Page :=
  run (uploadFile file p)
    (before ++ [.fetchResolved p.tasks.length status] ++ between
      ++ [.jsonRejected p.tasks.length message])

/-- A submission answered with a status and a JSON body `data`, up to the end of
the `try` block or the `catch` block. -/
def answered (p : Page) (file : File) (before : List Event) (status : Nat)
    (between : List Event) (data : UploadData) : Page :=
  run (uploadFile file p)
    (before ++ [.fetchResolved p.tasks.length status] ++ between
      ++ [.jsonResolved p.tasks.length data])

/-- An answered submission followed by other events `after` and the expiry of
the timer of its deferred success step. -/
def answeredThenTimer (p : Page) (file : File) (before : List Event) (status : Nat)
    (between : List Event) (data : UploadData) (after : List Event) : Page :=
  run (answered p file before status between data) (after ++ [.timerFired p.tasks.length])

/-! ## The cursor-tracking handler -/

/-- The functions of `Math` the `mousemove` handler calls, over a number type `α`. -/
structure MathFns (α : Type) where
  atan2 : α → α → α
  hypot : α → α → α
  cos : α → α
  sin : α → α
  min : α → α → α

/-- The fields of `eye.getBoundingClientRect()` the handler reads. -/
structure Rect (α : Type) where
  left : α
  top : α
  width : α
  height : α

/-- The pair `(pupilX, pupilY)` the `mousemove` handler computes for one eye. -/
def pupilOffset {α : Type} [Field α] (M : MathFns α) (clientX clientY : α) (eyeRect : Rect α) :
    α × α :=
  let eyeCenterX := eyeRect.left + eyeRect.width / 2
  let eyeCenterY := eyeRect.top + eyeRect.height / 2
  let angle := M.atan2 (clientY - eyeCenterY) (clientX - eyeCenterX)
  let distance := M.min 5 (M.hypot (clientX - eyeCenterX) (clientY - eyeCenterY) / 10)
  let pupilX := M.cos angle * distance
  let pupilY := M.sin angle * distance
  (pupilX, pupilY)

/-! ## The extension pattern is the case-insensitive suffix test -/

theorem search_iff (r : Regex) (s : List Char) :
    r.search s = true ↔ ∃ t, t <:+ s ∧ r.matchK t (fun _ => true) = true := by
  induction s with
  | nil => simp [Regex.search]
  | cons x xs ih =>
    simp only [Regex.search, Bool.or_eq_true, ih, List.suffix_cons_iff]
    constructor
    · rintro (h | ⟨t, ht, hm⟩)
      · exact ⟨x :: xs, Or.inl rfl, h⟩
      · exact ⟨t, Or.inr ht, hm⟩
    · rintro ⟨t, rfl | ht, hm⟩
      · exact Or.inl hm
      · exact Or.inr ⟨t, ht, hm⟩

theorem suffix_map_iff (f : Char → Char) (l s : List Char) :
    l <:+ s.map f ↔ ∃ t, t <:+ s ∧ t.map f = l := by
  constructor
  · rintro ⟨pre, h⟩
    obtain ⟨s₁, s₂, rfl, -, h₂⟩ := List.map_eq_append_iff.mp h.symm
    exact ⟨s₂, List.suffix_append s₁ s₂, h₂⟩
  · rintro ⟨t, ht, rfl⟩
    exact ht.map f

theorem matchK_excelExtension (t : List Char) :
    excelExtension.matchK t (fun _ => true) = true ↔
      t.map Char.toUpper = ".xlsx".data.map Char.toUpper ∨
      t.map Char.toUpper = ".xls".data.map Char.toUpper := by
  have hdot : ('.' : Char).toUpper = '.' := by decide
  have hx : ('x' : Char).toUpper = 'X' := by decide
  have hl : ('l' : Char).toUpper = 'L' := by decide
  have hs : ('s' : Char).toUpper = 'S' := by decide
  match t with
  | [] => simp [excelExtension, Regex.matchK]
  | [a] => simp [excelExtension, reXlsx, reXls, Regex.matchK]
  | [a, b] => simp [excelExtension, reXlsx, reXls, Regex.matchK]
  | [a, b, c] => simp [excelExtension, reXlsx, reXls, Regex.matchK]
  | [a, b, c, d] =>
    simp [excelExtension, reXlsx, reXls, Regex.matchK, canonicalize, hdot, hx, hl, hs]
  | [a, b, c, d, e] =>
    simp [excelExtension, reXlsx, reXls, Regex.matchK, canonicalize, hdot, hx, hl, hs]
  | a :: b :: c :: d :: e :: f :: rest =>
    simp [excelExtension, reXlsx, reXls, Regex.matchK, canonicalize, hdot, hx, hl, hs]

theorem nameMatches_iff (name : String) :
    nameMatches name = true ↔
      endsWithIgnoringCase name ".xlsx" = true ∨ endsWithIgnoringCase name ".xls" = true := by
  simp only [nameMatches, endsWithIgnoringCase, search_iff, matchK_excelExtension,
    List.isSuffixOf_iff_suffix, suffix_map_iff]
  constructor
  · rintro ⟨t, ht, h | h⟩
    · exact Or.inl ⟨t, ht, h⟩
    · exact Or.inr ⟨t, ht, h⟩
  · rintro (⟨t, ht, h⟩ | ⟨t, ht, h⟩)
    · exact ⟨t, ht, Or.inl h⟩
    · exact ⟨t, ht, Or.inr h⟩

theorem contains_validTypes (t : String) :
    validTypes.contains t =
      (t == "application/vnd.openxmlformats-officedocument.spreadsheetml.sheet"
        || t == "application/vnd.ms-excel") := by
  cases h₁ : t == "application/vnd.openxmlformats-officedocument.spreadsheetml.sheet" <;>
    cases h₂ : t == "application/vnd.ms-excel" <;>
    simp only [validTypes, List.contains, List.elem, h₁, h₂] <;> rfl

theorem typeCheck_eq (file : File) :
    (!validTypes.contains file.type && !nameMatches file.name) = !acceptedKind file := by
  have h := nameMatches_iff file.name
  rw [contains_validTypes]
  cases hn : nameMatches file.name <;> cases hx : endsWithIgnoringCase file.name ".xlsx" <;>
    cases hs : endsWithIgnoringCase file.name ".xls" <;>
    simp_all [acceptedKind]

/-- The three outcomes of `handleFileSelect` on a present file, with the kind test
in the claims' words. -/
theorem handleFileSelect_some (file : File) (p : Page) :
    handleFileSelect (some file) p =
      if acceptedKind file = false then
        showError (.str "Invalid file type. Please upload an Excel file (.xlsx or .xls)") p
      else if maxFileSize < file.size then
        showError (.str "File too large. Maximum size is 10MB") p
      else
        uploadFile file { p with
          fileInfoHTML := "\n        <strong>📄 Selected File:</strong><br>\n        " ++ file.name
            ++ " (" ++ sizeInKB file.size ++ " KB)\n    "
          fileInfoShow := true } := by
  simp only [handleFileSelect, typeCheck_eq]
  cases acceptedKind file <;> simp

theorem showError_visible (message : JSVal) (p : Page) :
    visibleSections (showError message p) = ["error"] := by
  simp [showError, showSection, visibleSections]

theorem showError_errorMessage (message : JSVal) (p : Page) :
    (showError message p).errorMessage = message.textContent := by
  simp [showError, showSection]

theorem showError_requests (message : JSVal) (p : Page) :
    (showError message p).requests = p.requests := by
  simp [showError, showSection]

theorem showError_tasks (message : JSVal) (p : Page) :
    (showError message p).tasks = p.tasks := by
  simp [showError, showSection]

/-! ## File selection -/

/-- C1: a present file whose name does not end in .xlsx or .xls (case ignored) and
whose declared type is neither accepted MIME type puts the page in the error
mode with the invalid-type message; no request is issued and nothing is left
pending, so `uploadFile` did not run. -/
theorem handleFileSelect_rejects_kind (p : Page) (file : File)
    (hxlsx : endsWithIgnoringCase file.name ".xlsx" = false)
    (hxls : endsWithIgnoringCase file.name ".xls" = false)
    (hsheet : file.type ≠ "application/vnd.openxmlformats-officedocument.spreadsheetml.sheet")
    (hexcel : file.type ≠ "application/vnd.ms-excel") :
    visibleSections (handleFileSelect (some file) p) = ["error"]
      ∧ (handleFileSelect (some file) p).errorMessage
          = "Invalid file type. Please upload an Excel file (.xlsx or .xls)"
      ∧ (handleFileSelect (some file) p).requests = p.requests
      ∧ (handleFileSelect (some file) p).tasks = p.tasks := by
  have hk : acceptedKind file = false := by simp [acceptedKind, hxlsx, hxls, hsheet, hexcel]
  rw [handleFileSelect_some, if_pos hk]
  exact ⟨showError_visible _ p, showError_errorMessage _ p, showError_requests _ p,
    showError_tasks _ p⟩

theorem handleFileSelect_rejects_kind_witness :
    visibleSections (handleFileSelect (some ⟨"notes.txt", "text/plain", 12⟩) blankPage) = ["error"]
      ∧ (handleFileSelect (some ⟨"notes.txt", "text/plain", 12⟩) blankPage).errorMessage
          = "Invalid file type. Please upload an Excel file (.xlsx or .xls)"
      ∧ (handleFileSelect (some ⟨"notes.txt", "text/plain", 12⟩) blankPage).requests
          = blankPage.requests
      ∧ (handleFileSelect (some ⟨"notes.txt", "text/plain", 12⟩) blankPage).tasks
          = blankPage.tasks :=
  handleFileSelect_rejects_kind blankPage ⟨"notes.txt", "text/plain", 12⟩
    (by decide) (by decide) (by decide) (by decide)

/-- C2, as stated, fails: a file of 10,485,761 bytes named `notes.txt` of type
`text/plain` is rejected with the invalid-type message, not the size message. -/
theorem handleFileSelect_oversized_counterexample :
    10485760 < (File.mk "notes.txt" "text/plain" 10485761).size
      ∧ (handleFileSelect (some ⟨"notes.txt", "text/plain", 10485761⟩) blankPage).errorMessage
          = "Invalid file type. Please upload an Excel file (.xlsx or .xls)"
      ∧ (handleFileSelect (some ⟨"notes.txt", "text/plain", 10485761⟩) blankPage).errorMessage
          ≠ "File too large. Maximum size is 10MB" := by
  refine ⟨by decide, ?_, ?_⟩
  · rw [handleFileSelect_some, if_pos (by decide), showError_errorMessage]; rfl
  · rw [handleFileSelect_some, if_pos (by decide), showError_errorMessage]; decide

/-- C2, amended: a present file larger than 10,485,760 bytes always ends in the error
mode with no request issued and nothing left pending; the message is the size
message when the file is of an accepted kind, and the invalid-type message
when it is not, the kind being checked first. -/
theorem handleFileSelect_rejects_oversized (p : Page) (file : File)
    (hsize : 10485760 < file.size) :
    visibleSections (handleFileSelect (some file) p) = ["error"]
      ∧ (handleFileSelect (some file) p).requests = p.requests
      ∧ (handleFileSelect (some file) p).tasks = p.tasks
      ∧ (handleFileSelect (some file) p).errorMessage =
          if acceptedKind file = true then "File too large. Maximum size is 10MB"
          else "Invalid file type. Please upload an Excel file (.xlsx or .xls)" := by
  have hmax : maxFileSize < file.size := hsize
  rw [handleFileSelect_some]
  cases hk : acceptedKind file
  · rw [if_pos rfl]
    exact ⟨showError_visible _ p, showError_requests _ p, showError_tasks _ p,
      by rw [showError_errorMessage]; rfl⟩
  · rw [if_neg (by simp), if_pos hmax]
    exact ⟨showError_visible _ p, showError_requests _ p, showError_tasks _ p,
      by rw [showError_errorMessage]; rfl⟩

theorem handleFileSelect_rejects_oversized_witness :
    visibleSections (handleFileSelect (some ⟨"big.xlsx", "", 10485761⟩) blankPage) = ["error"]
      ∧ (handleFileSelect (some ⟨"big.xlsx", "", 10485761⟩) blankPage).requests
          = blankPage.requests
      ∧ (handleFileSelect (some ⟨"big.xlsx", "", 10485761⟩) blankPage).tasks = blankPage.tasks
      ∧ (handleFileSelect (some ⟨"big.xlsx", "", 10485761⟩) blankPage).errorMessage =
          if acceptedKind ⟨"big.xlsx", "", 10485761⟩ = true then
            "File too large. Maximum size is 10MB"
          else "Invalid file type. Please upload an Excel file (.xlsx or .xls)" :=
  handleFileSelect_rejects_oversized blankPage ⟨"big.xlsx", "", 10485761⟩ (by decide)

theorem uploadFile_requests (file : File) (p : Page) :
    (uploadFile file p).requests =
      p.requests ++ [{ method := "POST", url := "/upload", body := .formData [("file", file)] }] := by
  simp [uploadFile, showSection, setProgress]

theorem uploadFile_tasks (file : File) (p : Page) :
    (uploadFile file p).tasks = p.tasks ++ [Task.awaitFetch] := by
  simp [uploadFile, showSection, setProgress]

theorem uploadFailed_requests (id : Nat) (message : String) (p : Page) :
    (uploadFailed id message p).requests = p.requests := by
  simp [uploadFailed, showError_requests]

/-- C3: a present file of an accepted kind and of at most 10,485,760 bytes makes
`handleFileSelect` issue exactly one request, a POST to `/upload` whose form
data holds that file under `file`, and leaves one task pending; no later
stage of that task (response, body, failure, success step) issues another. -/
theorem handleFileSelect_uploads (p : Page) (file : File)
    (hkind : acceptedKind file = true) (hsize : file.size ≤ 10485760) :
    (handleFileSelect (some file) p).requests =
        p.requests ++
          [{ method := "POST", url := "/upload", body := .formData [("file", file)] }]
      ∧ (handleFileSelect (some file) p).tasks = p.tasks ++ [Task.awaitFetch]
      ∧ ∀ (q : Page) (id status : Nat) (message : String) (data : UploadData),
          (fetchResolved id status q).requests = q.requests
            ∧ (jsonResolved id status data q).requests = q.requests
            ∧ (uploadFailed id message q).requests = q.requests
            ∧ (successStep id data q).requests = q.requests := by
  have hmax : ¬ maxFileSize < file.size := Nat.not_lt.mpr hsize
  rw [handleFileSelect_some, if_neg (by simp [hkind]), if_neg hmax]
  refine ⟨uploadFile_requests _ _, uploadFile_tasks _ _, ?_⟩
  intro q id status message data
  refine ⟨by simp [fetchResolved, setProgress], ?_, uploadFailed_requests _ _ _,
    by simp [successStep, showSection]⟩
  unfold jsonResolved
  split
  · exact uploadFailed_requests _ _ _
  · simp [setProgress]

theorem handleFileSelect_uploads_witness :
    (handleFileSelect (some ⟨"report.XLSX", "", 10485760⟩) blankPage).requests =
        blankPage.requests ++
          [{ method := "POST", url := "/upload"
             body := .formData [("file", ⟨"report.XLSX", "", 10485760⟩)] }]
      ∧ (handleFileSelect (some ⟨"report.XLSX", "", 10485760⟩) blankPage).tasks
          = blankPage.tasks ++ [Task.awaitFetch]
      ∧ ∀ (q : Page) (id status : Nat) (message : String) (data : UploadData),
          (fetchResolved id status q).requests = q.requests
            ∧ (jsonResolved id status data q).requests = q.requests
            ∧ (uploadFailed id message q).requests = q.requests
            ∧ (successStep id data q).requests = q.requests :=
  handleFileSelect_uploads blankPage ⟨"report.XLSX", "", 10485760⟩ (by decide) (by decide)

/-! ## Pending tasks keep their place -/

theorem run_append (p : Page) (es fs : List Event) : run p (es ++ fs) = run (run p es) fs := by
  simp [run, List.foldl_append]

theorem run_single (p : Page) (e : Event) : run p [e] = step p e := rfl

theorem elsewhere_cons {id : Nat} {e : Event} {es : List Event}
    (h : elsewhere id (e :: es) = true) : e.target ≠ some id ∧ elsewhere id es = true := by
  simp only [elsewhere, List.all_cons, Bool.and_eq_true, bne_iff_ne, ne_eq] at h
  exact ⟨h.1, h.2⟩

theorem fetchResolved_tasks (id status : Nat) (p : Page) :
    (fetchResolved id status p).tasks = p.tasks.set id (.awaitJson status) := by
  simp [fetchResolved, setProgress]

theorem uploadFailed_tasks (id : Nat) (message : String) (p : Page) :
    (uploadFailed id message p).tasks = p.tasks.set id .done := by
  simp [uploadFailed, showError_tasks]

theorem jsonResolved_tasks (id status : Nat) (data : UploadData) (p : Page) :
    (jsonResolved id status data p).tasks =
      p.tasks.set id (if responseOk status then .successTimer data else .done) := by
  unfold jsonResolved
  cases responseOk status
  · simp [uploadFailed_tasks]
  · simp [setProgress]

theorem successStep_tasks (id : Nat) (data : UploadData) (p : Page) :
    (successStep id data p).tasks = p.tasks.set id .done := by
  simp [successStep, showSection]

theorem cleanupStep_tasks (id : Nat) (p : Page) :
    (cleanupStep id p).tasks = p.tasks.set id .done := by
  simp [cleanupStep]

theorem reset_tasks (p : Page) : (reset p).tasks = p.tasks := by
  simp [reset, showSection, setProgress]

theorem handleFileSelect_tasks (file : Option File) (p : Page) :
    (handleFileSelect file p).tasks = p.tasks
      ∨ (handleFileSelect file p).tasks = p.tasks ++ [Task.awaitFetch] := by
  cases file with
  | none => exact Or.inl rfl
  | some file =>
    rw [handleFileSelect_some]
    split
    · exact Or.inl (showError_tasks _ _)
    · split
      · exact Or.inl (showError_tasks _ _)
      · exact Or.inr (uploadFile_tasks _ _)

theorem downloadClick_tasks (p : Page) :
    (downloadClick p).tasks = p.tasks ∨ (downloadClick p).tasks = p.tasks ++ [Task.cleanupTimer] := by
  unfold downloadClick
  split
  · exact Or.inl rfl
  · exact Or.inr rfl

/-- A turn of the event loop either leaves the task list alone, appends one task,
or overwrites the entry of the task its event resumes. -/
theorem step_tasks (p : Page) (e : Event) :
    (step p e).tasks = p.tasks ∨ (∃ t, (step p e).tasks = p.tasks ++ [t])
      ∨ ∃ j t, e.target = some j ∧ (step p e).tasks = p.tasks.set j t := by
  cases e with
  | fileChosen file =>
    rcases handleFileSelect_tasks file p with h | h
    · exact Or.inl h
    · exact Or.inr (Or.inl ⟨_, h⟩)
  | downloadClicked =>
    rcases downloadClick_tasks p with h | h
    · exact Or.inl h
    · exact Or.inr (Or.inl ⟨_, h⟩)
  | newReportClicked => exact Or.inl (reset_tasks p)
  | retryClicked => exact Or.inl (reset_tasks p)
  | fetchResolved id status =>
    simp only [step]
    split
    · exact Or.inr (Or.inr ⟨id, _, rfl, fetchResolved_tasks _ _ _⟩)
    · exact Or.inl rfl
  | fetchRejected id message =>
    simp only [step]
    split
    · exact Or.inr (Or.inr ⟨id, _, rfl, uploadFailed_tasks _ _ _⟩)
    · exact Or.inl rfl
  | jsonResolved id data =>
    simp only [step]
    split
    · exact Or.inr (Or.inr ⟨id, _, rfl, jsonResolved_tasks _ _ _ _⟩)
    · exact Or.inl rfl
  | jsonRejected id message =>
    simp only [step]
    split
    · exact Or.inr (Or.inr ⟨id, _, rfl, uploadFailed_tasks _ _ _⟩)
    · exact Or.inl rfl
  | timerFired id =>
    simp only [step]
    split
    · exact Or.inr (Or.inr ⟨id, _, rfl, successStep_tasks _ _ _⟩)
    · exact Or.inr (Or.inr ⟨id, _, rfl, cleanupStep_tasks _ _⟩)
    · exact Or.inl rfl

/-- An event that resumes another task, or none, leaves a pending task in place. -/
theorem step_keeps_task (p : Page) (e : Event) (id : Nat) (t : Task)
    (he : e.target ≠ some id) (ht : p.tasks[id]? = some t) :
    (step p e).tasks[id]? = some t := by
  have hlt : id < p.tasks.length := (List.getElem?_eq_some.mp ht).1
  rcases step_tasks p e with h | ⟨u, h⟩ | ⟨j, u, hj, h⟩
  · rw [h]; exact ht
  · rw [h, List.getElem?_append_left hlt]; exact ht
  · have hne : j ≠ id := fun hji => he (hji ▸ hj)
    rw [h, List.getElem?_set_ne hne]; exact ht

theorem run_keeps_task (events : List Event) (p : Page) (id : Nat) (t : Task)
    (he : elsewhere id events = true) (ht : p.tasks[id]? = some t) :
    (run p events).tasks[id]? = some t := by
  induction events generalizing p with
  | nil => exact ht
  | cons e es ih =>
    obtain ⟨h₁, h₂⟩ := elsewhere_cons he
    exact ih (step p e) h₂ (step_keeps_task p e id t h₁ ht)

theorem set_getElem?_self {l : List Task} {id : Nat} {t u : Task} (h : l[id]? = some t) :
    (l.set id u)[id]? = some u :=
  List.getElem?_set_self (List.getElem?_eq_some.mp h).1

/-! ## A submission, stage by stage -/

theorem uploadFile_pending (file : File) (p : Page) :
    (uploadFile file p).tasks[p.tasks.length]? = some Task.awaitFetch := by
  rw [uploadFile_tasks]; simp

theorem awaiting_fetch (p : Page) (file : File) (before : List Event)
    (h₁ : elsewhere p.tasks.length before = true) :
    (run (uploadFile file p) before).tasks[p.tasks.length]? = some Task.awaitFetch :=
  run_keeps_task before _ _ _ h₁ (uploadFile_pending file p)

theorem awaiting_json (p : Page) (file : File) (before : List Event) (status : Nat)
    (between : List Event) (h₁ : elsewhere p.tasks.length before = true)
    (h₂ : elsewhere p.tasks.length between = true) :
    (run (uploadFile file p)
      (before ++ [.fetchResolved p.tasks.length status] ++ between)).tasks[p.tasks.length]?
      = some (Task.awaitJson status) := by
  have h := awaiting_fetch p file before h₁
  rw [run_append, run_append, run_single]
  apply run_keeps_task between _ _ _ h₂
  simp only [step, h]
  rw [fetchResolved_tasks]
  exact set_getElem?_self h

theorem uploadFailed_spec (id : Nat) (message : String) (p : Page) (t : Task)
    (h : p.tasks[id]? = some t) :
    visibleSections (uploadFailed id message p) = ["error"]
      ∧ (uploadFailed id message p).errorMessage = message
      ∧ (uploadFailed id message p).tasks[id]? = some Task.done := by
  refine ⟨showError_visible _ _, ?_, ?_⟩
  · simp [uploadFailed, showError_errorMessage, JSVal.textContent, JSVal.toStr]
  · rw [uploadFailed_tasks]; exact set_getElem?_self h

theorem requestFails_eq (p : Page) (file : File) (before : List Event) (message : String)
    (h₁ : elsewhere p.tasks.length before = true) :
    requestFails p file before message
      = uploadFailed p.tasks.length message (run (uploadFile file p) before) := by
  have h := awaiting_fetch p file before h₁
  simp only [requestFails, run_append, run_single, step, h]

theorem requestFails_spec (p : Page) (file : File) (before : List Event) (message : String)
    (h₁ : elsewhere p.tasks.length before = true) :
    visibleSections (requestFails p file before message) = ["error"]
      ∧ (requestFails p file before message).errorMessage = message
      ∧ (requestFails p file before message).tasks[p.tasks.length]? = some Task.done := by
  rw [requestFails_eq p file before message h₁]
  exact uploadFailed_spec _ _ _ _ (awaiting_fetch p file before h₁)

theorem bodyFails_eq (p : Page) (file : File) (before : List Event) (status : Nat)
    (between : List Event) (message : String)
    (h₁ : elsewhere p.tasks.length before = true) (h₂ : elsewhere p.tasks.length between = true) :
    bodyFails p file before status between message
      = uploadFailed p.tasks.length message
          (run (uploadFile file p) (before ++ [.fetchResolved p.tasks.length status] ++ between)) := by
  have h := awaiting_json p file before status between h₁ h₂
  simp only [bodyFails]
  rw [run_append, run_single]
  simp only [step, h]

theorem bodyFails_spec (p : Page) (file : File) (before : List Event) (status : Nat)
    (between : List Event) (message : String)
    (h₁ : elsewhere p.tasks.length before = true) (h₂ : elsewhere p.tasks.length between = true) :
    visibleSections (bodyFails p file before status between message) = ["error"]
      ∧ (bodyFails p file before status between message).errorMessage = message
      ∧ (bodyFails p file before status between message).tasks[p.tasks.length]?
          = some Task.done := by
  rw [bodyFails_eq p file before status between message h₁ h₂]
  exact uploadFailed_spec _ _ _ _ (awaiting_json p file before status between h₁ h₂)

theorem answered_eq (p : Page) (file : File) (before : List Event) (status : Nat)
    (between : List Event) (data : UploadData)
    (h₁ : elsewhere p.tasks.length before = true) (h₂ : elsewhere p.tasks.length between = true) :
    answered p file before status between data
      = jsonResolved p.tasks.length status data
          (run (uploadFile file p) (before ++ [.fetchResolved p.tasks.length status] ++ between)) := by
  have h := awaiting_json p file before status between h₁ h₂
  simp only [answered]
  rw [run_append, run_single]
  simp only [step, h]

theorem answeredThenTimer_eq (p : Page) (file : File) (before : List Event) (status : Nat)
    (between : List Event) (data : UploadData) (after : List Event)
    (hlo : 200 ≤ status) (hhi : status ≤ 299)
    (h₁ : elsewhere p.tasks.length before = true) (h₂ : elsewhere p.tasks.length between = true)
    (h₃ : elsewhere p.tasks.length after = true) :
    answeredThenTimer p file before status between data after
      = successStep p.tasks.length data
          (run (answered p file before status between data) after) := by
  have h := awaiting_json p file before status between h₁ h₂
  have hok : responseOk status = true := by simp [responseOk, hlo, hhi]
  have ht : (answered p file before status between data).tasks[p.tasks.length]?
      = some (Task.successTimer data) := by
    rw [answered_eq p file before status between data h₁ h₂, jsonResolved_tasks, hok]
    exact set_getElem?_self h
  have ht' := run_keeps_task after _ _ _ h₃ ht
  simp only [answeredThenTimer]
  rw [run_append, run_single]
  simp only [step, ht']

theorem successStep_spec (id : Nat) (data : UploadData) (p : Page) :
    visibleSections (successStep id data p) = ["success"]
      ∧ (successStep id data p).generatedFilename = data.filename
      ∧ (successStep id data p).successMessage
          = (data.message.or (.str "Your EDR report is ready to download")).textContent := by
  simp [successStep, showSection, visibleSections]

/-- C4, as stated, fails: a 200 response whose body has the message `""` leaves the
default notice on display, not the empty message. -/
theorem success_message_counterexample :
    (answeredThenTimer (initialise blankPage) ⟨"report.xlsx", "", 2048⟩ [] 200 []
        ⟨.str "r1.pptx", .str "", .undefined⟩ []).successMessage
      = "Your EDR report is ready to download"
    ∧ (answeredThenTimer (initialise blankPage) ⟨"report.xlsx", "", 2048⟩ [] 200 []
        ⟨.str "r1.pptx", .str "", .undefined⟩ []).successMessage ≠ "" := by
  constructor
  · rfl
  · decide

/-- C4, amended: after a 2xx response whose JSON body has filename `f`, once the
deferred success step has run (whatever other events came in between) the
page is in the success mode and `generatedFilename` is `f`; the displayed
message is the body's message `m` when `m` is not empty, and the default
notice when the message is empty or absent. -/
theorem upload_success (p : Page) (file : File) (before between after : List Event)
    (status : Nat) (f m : String) (error : JSVal)
    (hlo : 200 ≤ status) (hhi : status ≤ 299)
    (h₁ : elsewhere p.tasks.length before = true) (h₂ : elsewhere p.tasks.length between = true)
    (h₃ : elsewhere p.tasks.length after = true) :
    visibleSections (answeredThenTimer p file before status between ⟨.str f, .str m, error⟩ after)
        = ["success"]
      ∧ (answeredThenTimer p file before status between
            ⟨.str f, .str m, error⟩ after).generatedFilename = .str f
      ∧ (answeredThenTimer p file before status between
            ⟨.str f, .str m, error⟩ after).successMessage
          = (if m = "" then "Your EDR report is ready to download" else m)
      ∧ visibleSections
          (answeredThenTimer p file before status between ⟨.str f, .undefined, error⟩ after)
        = ["success"]
      ∧ (answeredThenTimer p file before status between
            ⟨.str f, .undefined, error⟩ after).generatedFilename = .str f
      ∧ (answeredThenTimer p file before status between
            ⟨.str f, .undefined, error⟩ after).successMessage
          = "Your EDR report is ready to download" := by
  rw [answeredThenTimer_eq p file before status between _ after hlo hhi h₁ h₂ h₃,
    answeredThenTimer_eq p file before status between _ after hlo hhi h₁ h₂ h₃]
  obtain ⟨a₁, a₂, a₃⟩ := successStep_spec p.tasks.length ⟨.str f, .str m, error⟩
    (run (answered p file before status between ⟨.str f, .str m, error⟩) after)
  obtain ⟨b₁, b₂, b₃⟩ := successStep_spec p.tasks.length ⟨.str f, .undefined, error⟩
    (run (answered p file before status between ⟨.str f, .undefined, error⟩) after)
  refine ⟨a₁, a₂, ?_, b₁, b₂, ?_⟩
  · rw [a₃]
    by_cases hm : m = "" <;> simp [JSVal.or, JSVal.truthy, JSVal.textContent, JSVal.toStr, hm]
  · rw [b₃]; rfl

theorem upload_success_witness :
    visibleSections (answeredThenTimer (initialise blankPage) ⟨"report.xlsx", "", 2048⟩
        [] 200 [.downloadClicked] ⟨.str "r1.pptx", .str "Done", .undefined⟩ [.retryClicked])
        = ["success"]
      ∧ (answeredThenTimer (initialise blankPage) ⟨"report.xlsx", "", 2048⟩
            [] 200 [.downloadClicked]
            ⟨.str "r1.pptx", .str "Done", .undefined⟩ [.retryClicked]).generatedFilename
          = .str "r1.pptx"
      ∧ (answeredThenTimer (initialise blankPage) ⟨"report.xlsx", "", 2048⟩
            [] 200 [.downloadClicked]
            ⟨.str "r1.pptx", .str "Done", .undefined⟩ [.retryClicked]).successMessage
          = (if "Done" = "" then "Your EDR report is ready to download" else "Done")
      ∧ visibleSections (answeredThenTimer (initialise blankPage) ⟨"report.xlsx", "", 2048⟩
          [] 200 [.downloadClicked] ⟨.str "r1.pptx", .undefined, .undefined⟩ [.retryClicked])
        = ["success"]
      ∧ (answeredThenTimer (initialise blankPage) ⟨"report.xlsx", "", 2048⟩
            [] 200 [.downloadClicked]
            ⟨.str "r1.pptx", .undefined, .undefined⟩ [.retryClicked]).generatedFilename
          = .str "r1.pptx"
      ∧ (answeredThenTimer (initialise blankPage) ⟨"report.xlsx", "", 2048⟩
            [] 200 [.downloadClicked]
            ⟨.str "r1.pptx", .undefined, .undefined⟩ [.retryClicked]).successMessage
          = "Your EDR report is ready to download" :=
  upload_success (initialise blankPage) ⟨"report.xlsx", "", 2048⟩ [] [.downloadClicked]
    [.retryClicked] 200 "r1.pptx" "Done" .undefined (by decide) (by decide)
    (by decide) (by decide) (by decide)

theorem responseOk_false (status : Nat) (hbad : status < 200 ∨ 299 < status) :
    responseOk status = false := by
  rcases hbad with hb | hb
  · simp [responseOk]; omega
  · simp [responseOk]; omega

theorem answered_failure_eq (p : Page) (file : File) (before : List Event) (status : Nat)
    (between : List Event) (data : UploadData) (hbad : status < 200 ∨ 299 < status)
    (h₁ : elsewhere p.tasks.length before = true) (h₂ : elsewhere p.tasks.length between = true) :
    answered p file before status between data
      = uploadFailed p.tasks.length (data.error.or (.str "Upload failed")).toStr
          (run (uploadFile file p) (before ++ [.fetchResolved p.tasks.length status] ++ between)) := by
  rw [answered_eq p file before status between data h₁ h₂]
  simp only [jsonResolved, responseOk_false status hbad, Bool.not_false, if_true]

theorem answered_failure (p : Page) (file : File) (before : List Event) (status : Nat)
    (between : List Event) (data : UploadData) (hbad : status < 200 ∨ 299 < status)
    (h₁ : elsewhere p.tasks.length before = true) (h₂ : elsewhere p.tasks.length between = true) :
    visibleSections (answered p file before status between data) = ["error"]
      ∧ (answered p file before status between data).errorMessage
          = (data.error.or (.str "Upload failed")).toStr
      ∧ (answered p file before status between data).tasks[p.tasks.length]?
          = some Task.done := by
  rw [answered_failure_eq p file before status between data hbad h₁ h₂]
  exact uploadFailed_spec _ _ _ _ (awaiting_json p file before status between h₁ h₂)

/-- C5, as stated, fails: a 400 response whose body has the error `""` is displayed
as `Upload failed`, not as the empty string. -/
theorem error_message_counterexample :
    (answered (initialise blankPage) ⟨"report.xlsx", "", 2048⟩ [] 400 []
        ⟨.undefined, .undefined, .str ""⟩).errorMessage = "Upload failed"
    ∧ (answered (initialise blankPage) ⟨"report.xlsx", "", 2048⟩ [] 400 []
        ⟨.undefined, .undefined, .str ""⟩).errorMessage ≠ "" := by
  constructor
  · rfl
  · decide

/-- C5, amended: a submission that fails ends in the error mode with its task finished,
so that its success step never runs.  The displayed message is the error field
`e` of a non-2xx response when `e` is not empty, `Upload failed` when that
field is empty or absent, and the failure's own message when the request or
the reading of the body failed. -/
theorem upload_failure (p : Page) (file : File) (before between : List Event)
    (status anyStatus : Nat) (e failure : String) (filename message : JSVal)
    (hbad : status < 200 ∨ 299 < status)
    (h₁ : elsewhere p.tasks.length before = true) (h₂ : elsewhere p.tasks.length between = true) :
    (visibleSections (answered p file before status between ⟨filename, message, .str e⟩)
          = ["error"]
        ∧ (answered p file before status between ⟨filename, message, .str e⟩).errorMessage
            = (if e = "" then "Upload failed" else e)
        ∧ (answered p file before status between
              ⟨filename, message, .str e⟩).tasks[p.tasks.length]? = some Task.done)
      ∧ (visibleSections (answered p file before status between ⟨filename, message, .undefined⟩)
          = ["error"]
        ∧ (answered p file before status between ⟨filename, message, .undefined⟩).errorMessage
            = "Upload failed"
        ∧ (answered p file before status between
              ⟨filename, message, .undefined⟩).tasks[p.tasks.length]? = some Task.done)
      ∧ (visibleSections (requestFails p file before failure) = ["error"]
        ∧ (requestFails p file before failure).errorMessage = failure
        ∧ (requestFails p file before failure).tasks[p.tasks.length]? = some Task.done)
      ∧ (visibleSections (bodyFails p file before anyStatus between failure) = ["error"]
        ∧ (bodyFails p file before anyStatus between failure).errorMessage = failure
        ∧ (bodyFails p file before anyStatus between failure).tasks[p.tasks.length]?
            = some Task.done) := by
  refine ⟨?_, ?_, requestFails_spec p file before failure h₁,
    bodyFails_spec p file before anyStatus between failure h₁ h₂⟩
  · obtain ⟨a₁, a₂, a₃⟩ := answered_failure p file before status between
      ⟨filename, message, .str e⟩ hbad h₁ h₂
    refine ⟨a₁, ?_, a₃⟩
    rw [a₂]
    by_cases he : e = "" <;> simp [JSVal.or, JSVal.truthy, JSVal.toStr, he]
  · obtain ⟨a₁, a₂, a₃⟩ := answered_failure p file before status between
      ⟨filename, message, .undefined⟩ hbad h₁ h₂
    exact ⟨a₁, by rw [a₂]; rfl, a₃⟩

theorem upload_failure_witness :
    (visibleSections (answered (initialise blankPage) ⟨"report.xlsx", "", 2048⟩ [] 422
          [.newReportClicked] ⟨.undefined, .undefined, .str "bad sheet"⟩) = ["error"]
        ∧ (answered (initialise blankPage) ⟨"report.xlsx", "", 2048⟩ [] 422
            [.newReportClicked] ⟨.undefined, .undefined, .str "bad sheet"⟩).errorMessage
            = (if "bad sheet" = "" then "Upload failed" else "bad sheet")
        ∧ (answered (initialise blankPage) ⟨"report.xlsx", "", 2048⟩ [] 422
            [.newReportClicked]
            ⟨.undefined, .undefined, .str "bad sheet"⟩).tasks[(initialise blankPage).tasks.length]?
            = some Task.done)
      ∧ (visibleSections (answered (initialise blankPage) ⟨"report.xlsx", "", 2048⟩ [] 422
          [.newReportClicked] ⟨.undefined, .undefined, .undefined⟩) = ["error"]
        ∧ (answered (initialise blankPage) ⟨"report.xlsx", "", 2048⟩ [] 422
            [.newReportClicked] ⟨.undefined, .undefined, .undefined⟩).errorMessage
            = "Upload failed"
        ∧ (answered (initialise blankPage) ⟨"report.xlsx", "", 2048⟩ [] 422
            [.newReportClicked]
            ⟨.undefined, .undefined, .undefined⟩).tasks[(initialise blankPage).tasks.length]?
            = some Task.done)
      ∧ (visibleSections (requestFails (initialise blankPage) ⟨"report.xlsx", "", 2048⟩ []
          "Failed to fetch") = ["error"]
        ∧ (requestFails (initialise blankPage) ⟨"report.xlsx", "", 2048⟩ []
            "Failed to fetch").errorMessage = "Failed to fetch"
        ∧ (requestFails (initialise blankPage) ⟨"report.xlsx", "", 2048⟩ []
            "Failed to fetch").tasks[(initialise blankPage).tasks.length]? = some Task.done)
      ∧ (visibleSections (bodyFails (initialise blankPage) ⟨"report.xlsx", "", 2048⟩ [] 200
          [.newReportClicked] "Failed to fetch") = ["error"]
        ∧ (bodyFails (initialise blankPage) ⟨"report.xlsx", "", 2048⟩ [] 200
            [.newReportClicked] "Failed to fetch").errorMessage = "Failed to fetch"
        ∧ (bodyFails (initialise blankPage) ⟨"report.xlsx", "", 2048⟩ [] 200
            [.newReportClicked] "Failed to fetch").tasks[(initialise blankPage).tasks.length]?
            = some Task.done) :=
  upload_failure (initialise blankPage) ⟨"report.xlsx", "", 2048⟩ [] [.newReportClicked]
    422 200 "bad sheet" "Failed to fetch" .undefined .undefined (by decide)
    (by decide) (by decide)

/-! ## Reset -/

theorem reset_fields (p : Page) :
    visibleSections (reset p) = ["upload"]
      ∧ (reset p).generatedFilename = JSVal.null
      ∧ (reset p).fileInputValue = ""
      ∧ (reset p).fileInfoHTML = ""
      ∧ (reset p).fileInfoShow = false
      ∧ (reset p).progressPercent = 0
      ∧ (reset p).progressText = ""
      ∧ (reset p).errorMessage = p.errorMessage := by
  simp [reset, showSection, setProgress, visibleSections]

/-- C6, as stated, fails: after a rejected file, the retry button's `reset()` leaves the
text of `errorMessage` in place. -/
theorem reset_error_text_counterexample :
    (run (initialise blankPage)
        [.fileChosen (some ⟨"notes.txt", "text/plain", 12⟩), .retryClicked]).errorMessage
      = "Invalid file type. Please upload an Excel file (.xlsx or .xls)"
    ∧ (run (initialise blankPage)
        [.fileChosen (some ⟨"notes.txt", "text/plain", 12⟩), .retryClicked]).errorMessage ≠ "" := by
  constructor
  · rfl
  · decide

/-- C6, amended: from every page, `reset()` leaves the upload section alone visible (so
the error section and its text are hidden), `generatedFilename` null, the
file input and the selected-file display cleared, and the progress at
0 percent with an empty label; the text of `errorMessage` is left as it was. -/
theorem reset_clears (p : Page) :
    visibleSections (reset p) = ["upload"]
      ∧ (reset p).generatedFilename = JSVal.null
      ∧ (reset p).fileInputValue = ""
      ∧ (reset p).fileInfoHTML = ""
      ∧ (reset p).fileInfoShow = false
      ∧ (reset p).progressPercent = 0
      ∧ (reset p).progressText = ""
      ∧ (reset p).errorMessage = p.errorMessage :=
  reset_fields p

/-! ## Download and cleanup -/

/-- C7 fails on the code: the cleanup callback reads `generatedFilename` when its timer
expires, not when download was clicked.  After a download of `r1.pptx`, a
click on new-report makes the cleanup request go to `/cleanup/null`; a second
submission that succeeds with `r2.pptx` makes it go to `/cleanup/r2.pptx`. -/
theorem cleanup_reads_filename_late :
    (run (initialise blankPage)
        [.fileChosen (some ⟨"report.xlsx", "", 2048⟩), .fetchResolved 0 200,
         .jsonResolved 0 ⟨.str "r1.pptx", .str "Done", .undefined⟩, .timerFired 0,
         .downloadClicked, .newReportClicked, .timerFired 1]).location
        = some "/download/r1.pptx"
    ∧ (run (initialise blankPage)
        [.fileChosen (some ⟨"report.xlsx", "", 2048⟩), .fetchResolved 0 200,
         .jsonResolved 0 ⟨.str "r1.pptx", .str "Done", .undefined⟩, .timerFired 0,
         .downloadClicked, .newReportClicked, .timerFired 1]).requests
        = [{ method := "POST", url := "/upload"
             body := .formData [("file", ⟨"report.xlsx", "", 2048⟩)] },
           { method := "POST", url := "/cleanup/null", body := .none }]
    ∧ (run (initialise blankPage)
        [.fileChosen (some ⟨"report.xlsx", "", 2048⟩), .fetchResolved 0 200,
         .jsonResolved 0 ⟨.str "r1.pptx", .str "Done", .undefined⟩, .timerFired 0,
         .downloadClicked, .newReportClicked,
         .fileChosen (some ⟨"second.xlsx", "", 4096⟩), .fetchResolved 2 200,
         .jsonResolved 2 ⟨.str "r2.pptx", .str "Done", .undefined⟩, .timerFired 2,
         .timerFired 1]).requests
        = [{ method := "POST", url := "/upload"
             body := .formData [("file", ⟨"report.xlsx", "", 2048⟩)] },
           { method := "POST", url := "/upload"
             body := .formData [("file", ⟨"second.xlsx", "", 4096⟩)] },
           { method := "POST", url := "/cleanup/r2.pptx", body := .none }] := by
  refine ⟨?_, ?_, ?_⟩ <;> rfl

/-! ## One section at a time -/

theorem showSection_visible (p : Page) :
    visibleSections (showSection "upload" p) = ["upload"]
      ∧ visibleSections (showSection "progress" p) = ["progress"]
      ∧ visibleSections (showSection "success" p) = ["success"]
      ∧ visibleSections (showSection "error" p) = ["error"] := by
  simp [showSection, visibleSections]

theorem uploadFile_visible (file : File) (p : Page) :
    visibleSections (uploadFile file p) = ["progress"] := by
  simp [uploadFile, showSection, setProgress, visibleSections]

/-- A turn of the event loop leaves the visible sections as they were or leaves
exactly one section visible. -/
theorem step_visible (p : Page) (e : Event) :
    visibleSections (step p e) = visibleSections p
      ∨ (visibleSections (step p e)).length = 1 := by
  have herr : ∀ id message q, (visibleSections (uploadFailed id message q)).length = 1 := by
    intro id message q
    simp [uploadFailed, showError_visible]
  cases e with
  | fileChosen file =>
    cases file with
    | none => exact Or.inl rfl
    | some file =>
      right
      show (visibleSections (handleFileSelect (some file) p)).length = 1
      rw [handleFileSelect_some]
      split
      · rw [showError_visible]; rfl
      · split
        · rw [showError_visible]; rfl
        · rw [uploadFile_visible]; rfl
  | downloadClicked =>
    left
    show visibleSections (downloadClick p) = visibleSections p
    unfold downloadClick
    split <;> rfl
  | newReportClicked => right; show (visibleSections (reset p)).length = 1; rw [(reset_fields p).1]; rfl
  | retryClicked => right; show (visibleSections (reset p)).length = 1; rw [(reset_fields p).1]; rfl
  | fetchResolved id status =>
    simp only [step]
    split
    · exact Or.inl rfl
    · exact Or.inl rfl
  | fetchRejected id message =>
    simp only [step]
    split
    · exact Or.inr (herr _ _ _)
    · exact Or.inl rfl
  | jsonResolved id data =>
    simp only [step]
    split
    · unfold jsonResolved
      split
      · exact Or.inr (herr _ _ _)
      · exact Or.inl rfl
    · exact Or.inl rfl
  | jsonRejected id message =>
    simp only [step]
    split
    · exact Or.inr (herr _ _ _)
    · exact Or.inl rfl
  | timerFired id =>
    simp only [step]
    split
    · right; rw [(successStep_spec _ _ _).1]; rfl
    · exact Or.inl rfl
    · exact Or.inl rfl

theorem run_visible (events : List Event) (p : Page) (h : (visibleSections p).length = 1) :
    (visibleSections (run p events)).length = 1 := by
  induction events generalizing p with
  | nil => exact h
  | cons e es ih =>
    apply ih (step p e)
    rcases step_visible p e with h' | h'
    · rw [h']; exact h
    · exact h'

/-- C8: whatever the page was before the script ran, after the initial
`showSection('upload')` and any sequence of events exactly one of the four
sections is visible; `showSection` with each of the four names leaves exactly
the named section visible, `showError` the error section and `reset` the
upload section. -/
theorem one_section_visible (p₀ : Page) (events : List Event) :
    (visibleSections (run (initialise p₀) events)).length = 1
      ∧ (∀ p : Page,
          visibleSections (showSection "upload" p) = ["upload"]
            ∧ visibleSections (showSection "progress" p) = ["progress"]
            ∧ visibleSections (showSection "success" p) = ["success"]
            ∧ visibleSections (showSection "error" p) = ["error"])
      ∧ (∀ (message : JSVal) (p : Page), visibleSections (showError message p) = ["error"])
      ∧ (∀ p : Page, visibleSections (reset p) = ["upload"]) := by
  refine ⟨run_visible events _ ?_, showSection_visible, showError_visible,
    fun p => (reset_fields p).1⟩
  rw [initialise, (showSection_visible p₀).1]; rfl

/-! ## Progress on entering the error mode -/

/-- C9, as stated, fails: when the request of a submission fails, the page enters the
error mode with the progress still at 30 percent and its label in place. -/
theorem error_keeps_progress_counterexample :
    visibleSections (requestFails (initialise blankPage) ⟨"report.xlsx", "", 2048⟩ []
        "Failed to fetch") = ["error"]
    ∧ (requestFails (initialise blankPage) ⟨"report.xlsx", "", 2048⟩ []
        "Failed to fetch").progressPercent = 30
    ∧ (requestFails (initialise blankPage) ⟨"report.xlsx", "", 2048⟩ []
        "Failed to fetch").progressText = "Validating Excel format..." := by
  refine ⟨?_, ?_, ?_⟩ <;> rfl

theorem showError_progress (message : JSVal) (p : Page) :
    (showError message p).progressPercent = p.progressPercent
      ∧ (showError message p).progressText = p.progressText := by
  simp [showError, showSection]

theorem uploadFailed_progress (id : Nat) (message : String) (p : Page) :
    (uploadFailed id message p).progressPercent = p.progressPercent
      ∧ (uploadFailed id message p).progressText = p.progressText := by
  simp [uploadFailed, showError, showSection]

/-- C9, amended: entering the error mode leaves the progress indicators as they were.
`showError` changes neither the percent nor the label; so a file rejected by
`handleFileSelect` leaves them as before the selection, and a submission that
fails (request rejected, body unreadable, or non-2xx status) leaves them as
they were just before the failing event.  They return to 0 and empty on
`reset()`. -/
theorem error_entry_keeps_progress (p : Page) (rejected file : File)
    (before between : List Event) (status anyStatus : Nat) (data : UploadData)
    (failure : String) (message : JSVal)
    (hrej : acceptedKind rejected = false ∨ 10485760 < rejected.size)
    (hbad : status < 200 ∨ 299 < status)
    (h₁ : elsewhere p.tasks.length before = true) (h₂ : elsewhere p.tasks.length between = true) :
    ((showError message p).progressPercent = p.progressPercent
        ∧ (showError message p).progressText = p.progressText)
      ∧ (visibleSections (handleFileSelect (some rejected) p) = ["error"]
        ∧ (handleFileSelect (some rejected) p).progressPercent = p.progressPercent
        ∧ (handleFileSelect (some rejected) p).progressText = p.progressText)
      ∧ ((requestFails p file before failure).progressPercent
            = (run (uploadFile file p) before).progressPercent
        ∧ (requestFails p file before failure).progressText
            = (run (uploadFile file p) before).progressText)
      ∧ ((bodyFails p file before anyStatus between failure).progressPercent
            = (run (uploadFile file p)
                (before ++ [.fetchResolved p.tasks.length anyStatus] ++ between)).progressPercent
        ∧ (bodyFails p file before anyStatus between failure).progressText
            = (run (uploadFile file p)
                (before ++ [.fetchResolved p.tasks.length anyStatus] ++ between)).progressText)
      ∧ ((answered p file before status between data).progressPercent
            = (run (uploadFile file p)
                (before ++ [.fetchResolved p.tasks.length status] ++ between)).progressPercent
        ∧ (answered p file before status between data).progressText
            = (run (uploadFile file p)
                (before ++ [.fetchResolved p.tasks.length status] ++ between)).progressText)
      ∧ ((reset p).progressPercent = 0 ∧ (reset p).progressText = "") := by
  refine ⟨showError_progress message p, ?_, ?_, ?_, ?_, ?_⟩
  · rw [handleFileSelect_some]
    rcases hrej with hk | hs
    · rw [if_pos hk]
      exact ⟨showError_visible _ p, showError_progress _ p⟩
    · have hmax : maxFileSize < rejected.size := hs
      by_cases hk : acceptedKind rejected = false
      · rw [if_pos hk]
        exact ⟨showError_visible _ p, showError_progress _ p⟩
      · rw [if_neg hk, if_pos hmax]
        exact ⟨showError_visible _ p, showError_progress _ p⟩
  · rw [requestFails_eq p file before failure h₁]
    exact uploadFailed_progress _ _ _
  · rw [bodyFails_eq p file before anyStatus between failure h₁ h₂]
    exact uploadFailed_progress _ _ _
  · rw [answered_failure_eq p file before status between data hbad h₁ h₂]
    exact uploadFailed_progress _ _ _
  · exact ⟨(reset_fields p).2.2.2.2.2.1, (reset_fields p).2.2.2.2.2.2.1⟩

theorem error_entry_keeps_progress_witness :
    ((showError (.str "x") (initialise blankPage)).progressPercent
          = (initialise blankPage).progressPercent
        ∧ (showError (.str "x") (initialise blankPage)).progressText
          = (initialise blankPage).progressText)
      ∧ (visibleSections
            (handleFileSelect (some ⟨"notes.txt", "text/plain", 12⟩) (initialise blankPage))
          = ["error"]
        ∧ (handleFileSelect (some ⟨"notes.txt", "text/plain", 12⟩)
            (initialise blankPage)).progressPercent = (initialise blankPage).progressPercent
        ∧ (handleFileSelect (some ⟨"notes.txt", "text/plain", 12⟩)
            (initialise blankPage)).progressText = (initialise blankPage).progressText)
      ∧ ((requestFails (initialise blankPage) ⟨"report.xlsx", "", 2048⟩ []
            "Failed to fetch").progressPercent
            = (run (uploadFile ⟨"report.xlsx", "", 2048⟩ (initialise blankPage))
                []).progressPercent
        ∧ (requestFails (initialise blankPage) ⟨"report.xlsx", "", 2048⟩ []
            "Failed to fetch").progressText
            = (run (uploadFile ⟨"report.xlsx", "", 2048⟩ (initialise blankPage)) []).progressText)
      ∧ ((bodyFails (initialise blankPage) ⟨"report.xlsx", "", 2048⟩ [] 200 []
            "Failed to fetch").progressPercent
            = (run (uploadFile ⟨"report.xlsx", "", 2048⟩ (initialise blankPage))
                ([] ++ [.fetchResolved (initialise blankPage).tasks.length 200]
                  ++ [])).progressPercent
        ∧ (bodyFails (initialise blankPage) ⟨"report.xlsx", "", 2048⟩ [] 200 []
            "Failed to fetch").progressText
            = (run (uploadFile ⟨"report.xlsx", "", 2048⟩ (initialise blankPage))
                ([] ++ [.fetchResolved (initialise blankPage).tasks.length 200]
                  ++ [])).progressText)
      ∧ ((answered (initialise blankPage) ⟨"report.xlsx", "", 2048⟩ [] 500 []
            ⟨.undefined, .undefined, .str "bad sheet"⟩).progressPercent
            = (run (uploadFile ⟨"report.xlsx", "", 2048⟩ (initialise blankPage))
                ([] ++ [.fetchResolved (initialise blankPage).tasks.length 500]
                  ++ [])).progressPercent
        ∧ (answered (initialise blankPage) ⟨"report.xlsx", "", 2048⟩ [] 500 []
            ⟨.undefined, .undefined, .str "bad sheet"⟩).progressText
            = (run (uploadFile ⟨"report.xlsx", "", 2048⟩ (initialise blankPage))
                ([] ++ [.fetchResolved (initialise blankPage).tasks.length 500]
                  ++ [])).progressText)
      ∧ ((reset (initialise blankPage)).progressPercent = 0
        ∧ (reset (initialise blankPage)).progressText = "") :=
  error_entry_keeps_progress (initialise blankPage) ⟨"notes.txt", "text/plain", 12⟩
    ⟨"report.xlsx", "", 2048⟩ [] [] 500 200 ⟨.undefined, .undefined, .str "bad sheet"⟩
    "Failed to fetch" (.str "x") (Or.inl (by decide)) (Or.inr (by decide))
    (by decide) (by decide)

/-! ## The pupil offset over the reals -/

/-- C10: with the functions of `Math` read as the exact real functions, the offset the
`mousemove` handler computes has Euclidean length `min(5, d/10)`, where `d` is
the distance from the pointer to the centre of the eye; the length is at most
5, and the offset is `(0, 0)` when the pointer is at the centre. -/
theorem pupilOffset_length (clientX clientY : ℝ) (eyeRect : Rect ℝ) :
    let real : MathFns ℝ :=
      ⟨fun y x => Complex.arg ⟨x, y⟩, fun a b => Real.sqrt (a ^ 2 + b ^ 2),
        Real.cos, Real.sin, min⟩
    let centerX := eyeRect.left + eyeRect.width / 2
    let centerY := eyeRect.top + eyeRect.height / 2
    let d := Real.sqrt ((clientX - centerX) ^ 2 + (clientY - centerY) ^ 2)
    Real.sqrt ((pupilOffset real clientX clientY eyeRect).1 ^ 2
          + (pupilOffset real clientX clientY eyeRect).2 ^ 2) = min 5 (d / 10)
      ∧ Real.sqrt ((pupilOffset real clientX clientY eyeRect).1 ^ 2
          + (pupilOffset real clientX clientY eyeRect).2 ^ 2) ≤ 5
      ∧ pupilOffset real centerX centerY eyeRect = (0, 0) := by
  intro real centerX centerY d
  have hd : 0 ≤ min 5 (d / 10) :=
    le_min (by norm_num) (div_nonneg (Real.sqrt_nonneg _) (by norm_num))
  have hlen : Real.sqrt ((pupilOffset real clientX clientY eyeRect).1 ^ 2
      + (pupilOffset real clientX clientY eyeRect).2 ^ 2) = min 5 (d / 10) := by
    have hsq : ∀ a D : ℝ, (Real.cos a * D) ^ 2 + (Real.sin a * D) ^ 2 = D ^ 2 := by
      intro a D
      have := Real.cos_sq_add_sin_sq a
      calc (Real.cos a * D) ^ 2 + (Real.sin a * D) ^ 2
          = (Real.cos a ^ 2 + Real.sin a ^ 2) * D ^ 2 := by ring
        _ = D ^ 2 := by rw [this, one_mul]
    show Real.sqrt ((Real.cos _ * min 5 (d / 10)) ^ 2 + (Real.sin _ * min 5 (d / 10)) ^ 2)
      = min 5 (d / 10)
    rw [hsq, Real.sqrt_sq hd]
  refine ⟨hlen, ?_, ?_⟩
  · rw [hlen]; exact min_le_left _ _
  · simp [pupilOffset, real]

end EdrReportHub
